import Mathlib

/-!
Verification of the procedural starfield / nebula component
(`src/technex-3d/src/SpaceBackground.js`).

The JavaScript code is shallowly embedded over `ℝ`.  Calls to
`Math.random()` are modelled by an explicit stream `stream : ℕ → ℝ`
of draws together with a cursor that advances exactly when the source
consumes a draw; `Float32Array`s are modelled by a fixed-size indexed
store; the `for` loop of the star generator, whose index can be
decremented (`i--; continue`), is modelled with explicit fuel and an
`Option` result, `none` meaning the fuel was exhausted before the loop
finished.
-/

set_option maxHeartbeats 1000000

noncomputable section

/-- Model of a JS `Float32Array`: a fixed allocation size and the stored
values.  As in JS, a write outside the allocated range is discarded and
the size never changes after allocation. -/
structure Float32Buffer where
  size : ℕ
  data : ℕ → ℝ

/-- `a[i] = v` on a typed array: out-of-range writes are ignored. -/
def Float32Buffer.set (a : Float32Buffer) (i : ℕ) (v : ℝ) : Float32Buffer :=
  if i < a.size then { a with data := Function.update a.data i v } else a

/-- `new Float32Array(n)`: `n` slots, zero-initialised. -/
def Float32Buffer.new (n : ℕ) : Float32Buffer :=
  ⟨n, fun _ => 0⟩

/-- One entry of the `stellarTypes` table (lines 17-26 of the source):
an RGB colour, a sampling weight and a base size. -/
structure StellarType where
  colorR : ℝ
  colorG : ℝ
  colorB : ℝ
  weight : ℝ
  size : ℝ

/-- The eight stellar-classification presets of the source, in order:
M, K, G, F, A, B, O classes and red giants. -/
def stellarTypes : List StellarType :=
  [⟨0.95, 0.8, 0.65, 0.75, 0.3⟩,
   ⟨1.0, 0.9, 0.7, 0.12, 0.6⟩,
   ⟨1.0, 1.0, 0.9, 0.08, 0.8⟩,
   ⟨1.0, 0.98, 0.85, 0.03, 1.2⟩,
   ⟨0.95, 0.98, 1.0, 0.015, 1.8⟩,
   ⟨0.9, 0.95, 1.0, 0.003, 2.5⟩,
   ⟨0.85, 0.9, 1.0, 0.001, 3.0⟩,
   ⟨1.0, 0.6, 0.4, 0.001, 4.0⟩]

/-- The cumulative-weight selection loop of lines 61-71: walk the table
keeping a running cumulative weight; return the first entry whose
cumulative weight reaches `rand`, else the initial selection. -/
def selectLoop (rand : ℝ) : List StellarType → ℝ → StellarType → StellarType
  | [], _, sel => sel
  | t :: rest, cum, sel =>
    if rand ≤ cum + t.weight then t else selectLoop rand rest (cum + t.weight) sel

/-- `selectedType` of the source: the selection loop started at
cumulative weight `0` with `stellarTypes[0]` as the default. -/
def selectStellarType (rand : ℝ) : StellarType :=
  selectLoop rand stellarTypes 0 ⟨0.95, 0.8, 0.65, 0.75, 0.3⟩

/-- The distance-tiered radius of lines 41-51: near stars
(`i < count * 0.1`) in `[50, 150)`, medium stars (`i < count * 0.3`)
in `[150, 450)`, distant stars in `[400, 1200)`; `d` is the draw. -/
def starRadius (count i : ℕ) (d : ℝ) : ℝ :=
  if (i : ℝ) < count * 0.1 then d * 100 + 50
  else if (i : ℝ) < count * 0.3 then d * 300 + 150
  else d * 800 + 400

/-- Lower radius bound of the distance tier that star `i` of `count`
falls into (the claimed bands 50 / 150 / 400). -/
def tierLo (count i : ℕ) : ℝ :=
  if (i : ℝ) < count * 0.1 then 50
  else if (i : ℝ) < count * 0.3 then 150
  else 400

/-- Upper radius bound of the distance tier that star `i` of `count`
falls into (the claimed bands 150 / 450 / 1200). -/
def tierHi (count i : ℕ) : ℝ :=
  if (i : ℝ) < count * 0.1 then 150
  else if (i : ℝ) < count * 0.3 then 450
  else 1200

/-- Everything written for one placed star by the loop body of
lines 40-91: position, colour, size and magnitude. -/
structure StarData where
  px : ℝ
  py : ℝ
  pz : ℝ
  cr : ℝ
  cg : ℝ
  cb : ℝ
  size : ℝ
  magnitude : ℝ

/-- The placement part of the generation loop body (lines 40-91), as a
function of the star index and the seven `Math.random()` draws it
consumes, in source order: radius, theta, phi, stellar type, magnitude,
size jitter and colour variation. -/
def placeStar (count i : ℕ) (d0 d1 d2 d3 d4 d5 d6 : ℝ) : StarData :=
  let radius := starRadius count i d0
  let theta := d1 * Real.pi * 2
  let phi := Real.arccos (d2 * 2 - 1)
  let selectedType := selectStellarType d3
  let magnitude := d4
  let finalSize :=
    if magnitude < 0.85 then selectedType.size * (0.1 + d5 * 0.3)
    else if magnitude < 0.97 then selectedType.size * (0.4 + d5 * 0.6)
    else selectedType.size * (1.0 + d5 * 1.5)
  let colorVariation := 1 + (d6 - 0.5) * 0.1
  { px := radius * Real.sin phi * Real.cos theta
    py := radius * Real.sin phi * Real.sin theta
    pz := radius * Real.cos phi
    cr := min 1 (selectedType.colorR * colorVariation)
    cg := min 1 (selectedType.colorG * colorVariation)
    cb := min 1 (selectedType.colorB * colorVariation)
    size := finalSize
    magnitude := magnitude }

/-- The four parallel buffers allocated at lines 11-14. -/
structure Buffers where
  positions : Float32Buffer
  colors : Float32Buffer
  sizes : Float32Buffer
  magnitudes : Float32Buffer

/-- `new Float32Array(count * 3)` twice, `new Float32Array(count)` twice. -/
def initBuffers (count : ℕ) : Buffers :=
  ⟨Float32Buffer.new (count * 3), Float32Buffer.new (count * 3),
   Float32Buffer.new count, Float32Buffer.new count⟩

/-- The buffer writes of lines 56-91 for star `i`. -/
def bufWrite (i : ℕ) (sd : StarData) (b : Buffers) : Buffers :=
  { positions := ((b.positions.set (i * 3) sd.px).set (i * 3 + 1) sd.py).set (i * 3 + 2) sd.pz
    colors := ((b.colors.set (i * 3) sd.cr).set (i * 3 + 1) sd.cg).set (i * 3 + 2) sd.cb
    sizes := b.sizes.set i sd.size
    magnitudes := b.magnitudes.set i sd.magnitude }

/-- The generation `for` loop of lines 28-92, with explicit fuel.
`i` is the loop index, `c` the cursor into the random stream.  The
density test consumes two draws; when placement is rejected and the
retry draw exceeds `0.3` the source does `i--; continue`, i.e. the
index is unchanged and only the cursor advances; otherwise the seven
placement draws are consumed and index `i` is written. -/
def genLoop (count : ℕ) (stream : ℕ → ℝ) : ℕ → ℕ → ℕ → Buffers → Option Buffers
  | 0, i, _, b => if count ≤ i then some b else none
  | fuel + 1, i, c, b =>
    if count ≤ i then some b
    else if stream (c + 1) < Real.exp (-|(stream c - 0.5) * Real.pi| * 3) * 0.3 + 0.1 then
      genLoop count stream fuel (i + 1) (c + 9)
        (bufWrite i (placeStar count i (stream (c + 2)) (stream (c + 3)) (stream (c + 4))
          (stream (c + 5)) (stream (c + 6)) (stream (c + 7)) (stream (c + 8))) b)
    else if 0.3 < stream (c + 2) then
      genLoop count stream fuel i (c + 3) b
    else
      genLoop count stream fuel (i + 1) (c + 10)
        (bufWrite i (placeStar count i (stream (c + 3)) (stream (c + 4)) (stream (c + 5))
          (stream (c + 6)) (stream (c + 7)) (stream (c + 8)) (stream (c + 9))) b)

/-- The whole `useMemo` body: allocate the buffers and run the loop
from index `0`, cursor `0`. -/
def generateStars (count fuel : ℕ) (stream : ℕ → ℝ) : Option Buffers :=
  genLoop count stream fuel 0 0 (initBuffers count)

/-- Magnitude (Euclidean norm) of the position of star `j` in the
position buffer. -/
def posMag (b : Buffers) (j : ℕ) : ℝ :=
  Real.sqrt ((b.positions.data (j * 3)) ^ 2 + (b.positions.data (j * 3 + 1)) ^ 2 +
    (b.positions.data (j * 3 + 2)) ^ 2)

/-- `Math.max(0, (sizes[i] - 0.5) * 0.3)` of line 107. -/
def twinkleIntensity (s : ℝ) : ℝ :=
  max 0 ((s - 0.5) * 0.3)

/-- The scintillation factor of line 108; `rand` is the fresh
`Math.random()` frequency draw the source makes in each evaluation. -/
def scintillation (time : ℝ) (i : ℕ) (s rand : ℝ) : ℝ :=
  Real.sin (time * (1 + rand * 3) + i * 0.123) * twinkleIntensity s + 1

/-- The size written at line 111: base size times the clamped factor. -/
def frameSize (time : ℝ) (i : ℕ) (s rand : ℝ) : ℝ :=
  s * max 0.3 (scintillation time i s rand)

/-- `colorShift` of line 114. -/
def colorShift (time : ℝ) (i : ℕ) (s rand : ℝ) : ℝ :=
  (scintillation time i s rand - 1) * 0.05

/-- Red channel written at line 115. -/
def frameColorR (time : ℝ) (i : ℕ) (s rand c : ℝ) : ℝ :=
  min 1 (c * (1 + colorShift time i s rand))

/-- Green channel written at line 116. -/
def frameColorG (time : ℝ) (i : ℕ) (s rand c : ℝ) : ℝ :=
  min 1 (c * (1 - colorShift time i s rand * 0.3))

/-- Blue channel written at line 117. -/
def frameColorB (time : ℝ) (i : ℕ) (s rand c : ℝ) : ℝ :=
  min 1 (c * (1 - colorShift time i s rand * 0.6))

/-- State touched by the `useFrame` callback (lines 97-123): the
geometry position / size / colour attribute arrays plus the memoised
base buffers captured by the closure. -/
structure FrameState where
  positionAttr : Float32Buffer
  sizeAttr : Float32Buffer
  colorAttr : Float32Buffer
  baseSizes : Float32Buffer
  baseColors : Float32Buffer
  magnitudes : Float32Buffer

/-- Body of the per-frame loop for star `i` (lines 105-118): rewrite
`sizeAttribute.array[i]` and the three colour channels from the base
buffers; `rand` is the frequency draw of this iteration. -/
def frameWriteStar (time rand : ℝ) (i : ℕ) (st : FrameState) : FrameState :=
  let s := st.baseSizes.data i
  { st with
    sizeAttr := st.sizeAttr.set i (frameSize time i s rand)
    colorAttr :=
      ((st.colorAttr.set (i * 3) (frameColorR time i s rand (st.baseColors.data (i * 3)))).set
        (i * 3 + 1) (frameColorG time i s rand (st.baseColors.data (i * 3 + 1)))).set
        (i * 3 + 2) (frameColorB time i s rand (st.baseColors.data (i * 3 + 2))) }

/-- The per-frame loop starting at index `i` with `rem` stars left;
`stream j` is the frequency draw used for star `j`. -/
def frameLoopFrom (time : ℝ) (stream : ℕ → ℝ) : ℕ → ℕ → FrameState → FrameState
  | _, 0, st => st
  | i, rem + 1, st => frameLoopFrom time stream (i + 1) rem (frameWriteStar time (stream i) i st)

/-- One whole `useFrame` invocation over `count` stars. -/
def useFrameStep (count : ℕ) (time : ℝ) (stream : ℕ → ℝ) (st : FrameState) : FrameState :=
  frameLoopFrom time stream 0 count st

/-- The multi-octave noise plus turbulence of lines 165-173 of the
nebula texture loop, at pixel `(x, y)`. -/
def nebulaNoise (x y : ℕ) : ℝ :=
  Real.sin ((x : ℝ) / 512 * 12 + (y : ℝ) / 512 * 8) * 0.5
  + Real.sin ((x : ℝ) / 512 * 24 + (y : ℝ) / 512 * 16) * 0.25
  + Real.sin ((x : ℝ) / 512 * 48 + (y : ℝ) / 512 * 32) * 0.125
  + Real.sin ((x : ℝ) / 512 * 96 + (y : ℝ) / 512 * 64) * 0.0625
  + Real.sin ((x : ℝ) / 512 * 80 + Real.cos ((y : ℝ) / 512 * 60) * 2) * 0.3

/-- The alpha channel of lines 176-179: normalise the noise, apply the
power curve `Math.pow(max(0, n - 0.4), 2.5)`, scale by 80 and clamp at
255. -/
def nebulaAlpha (x y : ℕ) : ℝ :=
  min 255 ((max 0 ((nebulaNoise x y + 1) * 0.5 - 0.4)) ^ (2.5 : ℝ) * 80)

/-- The RGB palette of lines 181-191, keyed on the nebula type string. -/
def nebulaRGB (t : String) : ℕ × ℕ × ℕ :=
  if t = "dark" then (20, 15, 10) else (180, 200, 255)

/-- One full pixel of the synthesised 512×512 raster: palette RGB and
computed alpha.  The synthesis loop samples no random source, so the
pixel is a function of the nebula type and the coordinates alone. -/
def nebulaPixel (t : String) (x y : ℕ) : (ℕ × ℕ × ℕ) × ℝ :=
  (nebulaRGB t, nebulaAlpha x y)

/-- Size claims on the four buffers for a requested count. -/
abbrev SizesOK (count : ℕ) (b : Buffers) : Prop :=
  b.positions.size = count * 3 ∧ b.colors.size = count * 3 ∧
  b.sizes.size = count ∧ b.magnitudes.size = count

/-- Well-formedness of one written star: colour channels in `[0, 1]`
and position magnitude within the distance-tier radius band. -/
abbrev StarOK (count : ℕ) (b : Buffers) (j : ℕ) : Prop :=
  (0 ≤ b.colors.data (j * 3) ∧ b.colors.data (j * 3) ≤ 1) ∧
  (0 ≤ b.colors.data (j * 3 + 1) ∧ b.colors.data (j * 3 + 1) ≤ 1) ∧
  (0 ≤ b.colors.data (j * 3 + 2) ∧ b.colors.data (j * 3 + 2) ≤ 1) ∧
  (tierLo count j ≤ posMag b j ∧ posMag b j ≤ tierHi count j)

/-- Loop invariant of the generation loop: buffer sizes are right and
every star below the current index is well formed. -/
abbrev GenInv (count hi : ℕ) (b : Buffers) : Prop :=
  SizesOK count b ∧ ∀ j, j < hi → StarOK count b j

theorem Float32Buffer.size_set (a : Float32Buffer) (i : ℕ) (v : ℝ) :
    (a.set i v).size = a.size := by
  unfold Float32Buffer.set
  split <;> rfl

theorem Float32Buffer.data_set_same (a : Float32Buffer) (i : ℕ) (v : ℝ) (h : i < a.size) :
    (a.set i v).data i = v := by
  unfold Float32Buffer.set
  rw [if_pos h]
  exact Function.update_same i v a.data

theorem Float32Buffer.data_set_other (a : Float32Buffer) (i j : ℕ) (v : ℝ) (h : j ≠ i) :
    (a.set i v).data j = a.data j := by
  unfold Float32Buffer.set
  split
  · exact Function.update_noteq h v a.data
  · rfl

/-- The selection loop propagates any property shared by the table
entries and the default selection. -/
theorem selectLoop_prop (P : StellarType → Prop) (rand : ℝ) :
    ∀ (l : List StellarType) (cum : ℝ) (sel : StellarType),
      (∀ t ∈ l, P t) → P sel → P (selectLoop rand l cum sel) := by
  intro l
  induction l with
  | nil =>
    intro cum sel _ hsel
    simpa [selectLoop] using hsel
  | cons t rest ih =>
    intro cum sel hl hsel
    rw [selectLoop]
    split
    · exact hl t (by simp)
    · exact ih _ _ (fun u hu => hl u (by simp [hu])) hsel

/-- All colour channels in the stellar table are nonnegative, hence so
are the channels of any selected type. -/
theorem selectStellarType_nonneg (r : ℝ) :
    0 ≤ (selectStellarType r).colorR ∧ 0 ≤ (selectStellarType r).colorG ∧
      0 ≤ (selectStellarType r).colorB := by
  unfold selectStellarType
  apply selectLoop_prop (fun t => 0 ≤ t.colorR ∧ 0 ≤ t.colorG ∧ 0 ≤ t.colorB)
  · intro t ht
    simp only [stellarTypes, List.mem_cons, List.not_mem_nil, or_false] at ht
    rcases ht with rfl | rfl | rfl | rfl | rfl | rfl | rfl | rfl <;> norm_num
  · norm_num

theorem tierLo_nonneg (count i : ℕ) : 0 ≤ tierLo count i := by
  unfold tierLo
  split_ifs <;> norm_num

theorem starRadius_bounds (count i : ℕ) (d : ℝ) (h0 : 0 ≤ d) (h1 : d < 1) :
    tierLo count i ≤ starRadius count i d ∧ starRadius count i d ≤ tierHi count i := by
  unfold starRadius tierLo tierHi
  split_ifs <;> constructor <;> linarith

/-- Norm of a point sampled by spherical angles at radius `r`. -/
theorem sph_norm (r a b : ℝ) (hr : 0 ≤ r) :
    Real.sqrt ((r * Real.sin a * Real.cos b) ^ 2 + (r * Real.sin a * Real.sin b) ^ 2 +
      (r * Real.cos a) ^ 2) = r := by
  have h1 : Real.cos b ^ 2 + Real.sin b ^ 2 = 1 := Real.cos_sq_add_sin_sq b
  have h2 : Real.sin a ^ 2 + Real.cos a ^ 2 = 1 := Real.sin_sq_add_cos_sq a
  have hsum : (r * Real.sin a * Real.cos b) ^ 2 + (r * Real.sin a * Real.sin b) ^ 2 +
      (r * Real.cos a) ^ 2 = r ^ 2 := by
    linear_combination (r ^ 2 * Real.sin a ^ 2) * h1 + r ^ 2 * h2
  rw [hsum, Real.sqrt_sq hr]

/-- The colour channels produced by `placeStar` lie in `[0, 1]`. -/
theorem placeStar_colors (count i : ℕ) (d0 d1 d2 d3 d4 d5 d6 : ℝ) (h6 : 0 ≤ d6) :
    (0 ≤ (placeStar count i d0 d1 d2 d3 d4 d5 d6).cr ∧
      (placeStar count i d0 d1 d2 d3 d4 d5 d6).cr ≤ 1) ∧
    (0 ≤ (placeStar count i d0 d1 d2 d3 d4 d5 d6).cg ∧
      (placeStar count i d0 d1 d2 d3 d4 d5 d6).cg ≤ 1) ∧
    (0 ≤ (placeStar count i d0 d1 d2 d3 d4 d5 d6).cb ∧
      (placeStar count i d0 d1 d2 d3 d4 d5 d6).cb ≤ 1) := by
  obtain ⟨hr, hg, hb⟩ := selectStellarType_nonneg d3
  have hvar : 0 ≤ 1 + (d6 - 0.5) * 0.1 := by linarith
  simp only [placeStar]
  refine ⟨⟨?_, min_le_left _ _⟩, ⟨?_, min_le_left _ _⟩, ⟨?_, min_le_left _ _⟩⟩
  · exact le_min (by norm_num) (mul_nonneg hr hvar)
  · exact le_min (by norm_num) (mul_nonneg hg hvar)
  · exact le_min (by norm_num) (mul_nonneg hb hvar)

/-- The position produced by `placeStar` has norm inside the star's
distance-tier radius band. -/
theorem placeStar_posNorm (count i : ℕ) (d0 d1 d2 d3 d4 d5 d6 : ℝ)
    (h0 : 0 ≤ d0) (h1 : d0 < 1) :
    tierLo count i ≤ Real.sqrt ((placeStar count i d0 d1 d2 d3 d4 d5 d6).px ^ 2 +
        (placeStar count i d0 d1 d2 d3 d4 d5 d6).py ^ 2 +
        (placeStar count i d0 d1 d2 d3 d4 d5 d6).pz ^ 2) ∧
      Real.sqrt ((placeStar count i d0 d1 d2 d3 d4 d5 d6).px ^ 2 +
        (placeStar count i d0 d1 d2 d3 d4 d5 d6).py ^ 2 +
        (placeStar count i d0 d1 d2 d3 d4 d5 d6).pz ^ 2) ≤ tierHi count i := by
  have hb := starRadius_bounds count i d0 h0 h1
  have hrnn : 0 ≤ starRadius count i d0 := le_trans (tierLo_nonneg count i) hb.1
  simp only [placeStar]
  rw [sph_norm _ _ _ hrnn]
  exact hb

theorem bufWrite_sizesOK (count i : ℕ) (sd : StarData) (b : Buffers) (h : SizesOK count b) :
    SizesOK count (bufWrite i sd b) := by
  obtain ⟨h1, h2, h3, h4⟩ := h
  exact ⟨by simp [bufWrite, Float32Buffer.size_set, h1],
         by simp [bufWrite, Float32Buffer.size_set, h2],
         by simp [bufWrite, Float32Buffer.size_set, h3],
         by simp [bufWrite, Float32Buffer.size_set, h4]⟩

theorem bufWrite_positions_other (i : ℕ) (sd : StarData) (b : Buffers) (m : ℕ)
    (hm0 : m ≠ i * 3) (hm1 : m ≠ i * 3 + 1) (hm2 : m ≠ i * 3 + 2) :
    (bufWrite i sd b).positions.data m = b.positions.data m := by
  simp only [bufWrite]
  rw [Float32Buffer.data_set_other _ _ _ _ hm2, Float32Buffer.data_set_other _ _ _ _ hm1,
    Float32Buffer.data_set_other _ _ _ _ hm0]

theorem bufWrite_colors_other (i : ℕ) (sd : StarData) (b : Buffers) (m : ℕ)
    (hm0 : m ≠ i * 3) (hm1 : m ≠ i * 3 + 1) (hm2 : m ≠ i * 3 + 2) :
    (bufWrite i sd b).colors.data m = b.colors.data m := by
  simp only [bufWrite]
  rw [Float32Buffer.data_set_other _ _ _ _ hm2, Float32Buffer.data_set_other _ _ _ _ hm1,
    Float32Buffer.data_set_other _ _ _ _ hm0]

/-- After `bufWrite i`, star `i`'s position and colour entries hold
exactly the fields of the written `StarData` (the writes are in range
because `i < count`). -/
theorem bufWrite_star_data (count i : ℕ) (sd : StarData) (b : Buffers)
    (hsz : SizesOK count b) (hi : i < count) :
    (bufWrite i sd b).positions.data (i * 3) = sd.px ∧
    (bufWrite i sd b).positions.data (i * 3 + 1) = sd.py ∧
    (bufWrite i sd b).positions.data (i * 3 + 2) = sd.pz ∧
    (bufWrite i sd b).colors.data (i * 3) = sd.cr ∧
    (bufWrite i sd b).colors.data (i * 3 + 1) = sd.cg ∧
    (bufWrite i sd b).colors.data (i * 3 + 2) = sd.cb := by
  obtain ⟨h1, h2, _, _⟩ := hsz
  have hp0 : i * 3 < b.positions.size := by omega
  have hp1 : i * 3 + 1 < (b.positions.set (i * 3) sd.px).size := by
    rw [Float32Buffer.size_set]; omega
  have hp2 : i * 3 + 2 < ((b.positions.set (i * 3) sd.px).set (i * 3 + 1) sd.py).size := by
    rw [Float32Buffer.size_set, Float32Buffer.size_set]; omega
  have hc0 : i * 3 < b.colors.size := by omega
  have hc1 : i * 3 + 1 < (b.colors.set (i * 3) sd.cr).size := by
    rw [Float32Buffer.size_set]; omega
  have hc2 : i * 3 + 2 < ((b.colors.set (i * 3) sd.cr).set (i * 3 + 1) sd.cg).size := by
    rw [Float32Buffer.size_set, Float32Buffer.size_set]; omega
  refine ⟨?_, ?_, ?_, ?_, ?_, ?_⟩ <;> simp only [bufWrite]
  · rw [Float32Buffer.data_set_other _ _ _ _ (by omega), Float32Buffer.data_set_other _ _ _ _
      (by omega), Float32Buffer.data_set_same _ _ _ hp0]
  · rw [Float32Buffer.data_set_other _ _ _ _ (by omega), Float32Buffer.data_set_same _ _ _ hp1]
  · rw [Float32Buffer.data_set_same _ _ _ hp2]
  · rw [Float32Buffer.data_set_other _ _ _ _ (by omega), Float32Buffer.data_set_other _ _ _ _
      (by omega), Float32Buffer.data_set_same _ _ _ hc0]
  · rw [Float32Buffer.data_set_other _ _ _ _ (by omega), Float32Buffer.data_set_same _ _ _ hc1]
  · rw [Float32Buffer.data_set_same _ _ _ hc2]

/-- One placement step preserves the generation invariant, extending it
to the freshly written star. -/
theorem genInv_step (count i : ℕ) (d0 d1 d2 d3 d4 d5 d6 : ℝ) (b : Buffers)
    (h0 : 0 ≤ d0) (h1 : d0 < 1) (h6 : 0 ≤ d6)
    (hInv : GenInv count i b) (hi : i < count) :
    GenInv count (i + 1) (bufWrite i (placeStar count i d0 d1 d2 d3 d4 d5 d6) b) := by
  obtain ⟨hsz, hstars⟩ := hInv
  obtain ⟨e1, e2, e3, e4, e5, e6⟩ :=
    bufWrite_star_data count i (placeStar count i d0 d1 d2 d3 d4 d5 d6) b hsz hi
  refine ⟨bufWrite_sizesOK count i _ b hsz, ?_⟩
  intro j hj
  rcases Nat.lt_succ_iff_lt_or_eq.mp hj with hlt | rfl
  · have hne : j ≠ i := Nat.ne_of_lt hlt
    obtain ⟨hc0, hc1, hc2, hpos⟩ := hstars j hlt
    refine ⟨?_, ?_, ?_, ?_⟩
    · rwa [bufWrite_colors_other i _ b (j * 3) (by omega) (by omega) (by omega)]
    · rwa [bufWrite_colors_other i _ b (j * 3 + 1) (by omega) (by omega) (by omega)]
    · rwa [bufWrite_colors_other i _ b (j * 3 + 2) (by omega) (by omega) (by omega)]
    · unfold posMag
      rw [bufWrite_positions_other i _ b (j * 3) (by omega) (by omega) (by omega),
        bufWrite_positions_other i _ b (j * 3 + 1) (by omega) (by omega) (by omega),
        bufWrite_positions_other i _ b (j * 3 + 2) (by omega) (by omega) (by omega)]
      exact hpos
  · obtain ⟨hcr, hcg, hcb⟩ := placeStar_colors count j d0 d1 d2 d3 d4 d5 d6 h6
    refine ⟨?_, ?_, ?_, ?_⟩
    · rwa [e4]
    · rwa [e5]
    · rwa [e6]
    · unfold posMag
      rw [e1, e2, e3]
      exact placeStar_posNorm count j d0 d1 d2 d3 d4 d5 d6 h0 h1

/-- Whenever the generation loop finishes within its fuel, the final
buffers satisfy the size claims and every star below `count` is well
formed. -/
theorem genLoop_inv (count : ℕ) (stream : ℕ → ℝ) (hs : ∀ k, 0 ≤ stream k ∧ stream k < 1) :
    ∀ fuel i c b b2, GenInv count i b → genLoop count stream fuel i c b = some b2 →
      SizesOK count b2 ∧ ∀ j, j < count → StarOK count b2 j := by
  intro fuel
  induction fuel with
  | zero =>
    intro i c b b2 hInv h
    rw [genLoop] at h
    split at h
    · cases h
      exact ⟨hInv.1, fun j hj => hInv.2 j (by omega)⟩
    · cases h
  | succ n ih =>
    intro i c b b2 hInv h
    rw [genLoop] at h
    split at h
    · cases h
      exact ⟨hInv.1, fun j hj => hInv.2 j (by omega)⟩
    · rename_i hci
      have hi : i < count := by omega
      split at h
      · exact ih _ _ _ _ (genInv_step count i _ _ _ _ _ _ _ b (hs (c + 2)).1 (hs (c + 2)).2
          (hs (c + 8)).1 hInv hi) h
      · split at h
        · exact ih _ _ _ _ hInv h
        · exact ih _ _ _ _ (genInv_step count i _ _ _ _ _ _ _ b (hs (c + 3)).1 (hs (c + 3)).2
            (hs (c + 9)).1 hInv hi) h

/-- With the constant stream `1/2` every iteration of the generation
loop takes the `i--; continue` branch: the density threshold is at most
`0.4 < 1/2`, so placement is rejected, and the retry draw `1/2 > 0.3`
forces the skip, leaving the loop index at `0` forever. -/
theorem genLoop_half_skip :
    ∀ fuel c b, genLoop 1 (fun _ => (1 / 2 : ℝ)) fuel 0 c b = none := by
  intro fuel
  induction fuel with
  | zero =>
    intro c b
    rw [genLoop, if_neg (by omega : ¬(1 ≤ 0))]
  | succ n ih =>
    intro c b
    have hcond : ¬ ((fun _ => (1 / 2 : ℝ)) (c + 1) <
        Real.exp (-|((fun _ => (1 / 2 : ℝ)) c - 0.5) * Real.pi| * 3) * 0.3 + 0.1) := by
      show ¬ ((1 / 2 : ℝ) < Real.exp (-|((1 / 2 : ℝ) - 0.5) * Real.pi| * 3) * 0.3 + 0.1)
      rw [show ((1 / 2 : ℝ) - 0.5) * Real.pi = 0 by norm_num, abs_zero, neg_zero, zero_mul,
        Real.exp_zero]
      norm_num
    have hretry : (0.3 : ℝ) < (fun _ => (1 / 2 : ℝ)) (c + 2) := by norm_num
    rw [genLoop, if_neg (by omega : ¬(1 ≤ 0)), if_neg hcond, if_pos hretry]
    exact ih (c + 3) b

/-- A placement draw below `0.1` is always accepted: the acceptance
threshold `exp(..) * 0.3 + 0.1` exceeds `0.1`. -/
theorem genLoop_low_draw_terminates (count : ℕ) (stream : ℕ → ℝ) (hs : ∀ k, stream k < 0.1) :
    ∀ fuel i c b, count ≤ i + fuel → ∃ b2, genLoop count stream fuel i c b = some b2 := by
  intro fuel
  induction fuel with
  | zero =>
    intro i c b hle
    exact ⟨b, by rw [genLoop, if_pos (by omega : count ≤ i)]⟩
  | succ n ih =>
    intro i c b hle
    by_cases hci : count ≤ i
    · exact ⟨b, by rw [genLoop, if_pos hci]⟩
    · have hcond : stream (c + 1) < Real.exp (-|(stream c - 0.5) * Real.pi| * 3) * 0.3 + 0.1 := by
        have hpos := Real.exp_pos (-|(stream c - 0.5) * Real.pi| * 3)
        have hlt := hs (c + 1)
        nlinarith
      obtain ⟨b2, hb2⟩ := ih (i + 1) (c + 9) (bufWrite i (placeStar count i (stream (c + 2))
        (stream (c + 3)) (stream (c + 4)) (stream (c + 5)) (stream (c + 6)) (stream (c + 7))
        (stream (c + 8))) b) (by omega)
      exact ⟨b2, by rw [genLoop, if_neg hci, if_pos hcond]; exact hb2⟩

/-- The per-frame loop never writes any field other than the size and
colour attribute arrays. -/
theorem frameLoopFrom_preserves (time : ℝ) (stream : ℕ → ℝ) :
    ∀ rem i st, (frameLoopFrom time stream i rem st).positionAttr = st.positionAttr ∧
      (frameLoopFrom time stream i rem st).magnitudes = st.magnitudes ∧
      (frameLoopFrom time stream i rem st).baseSizes = st.baseSizes ∧
      (frameLoopFrom time stream i rem st).baseColors = st.baseColors := by
  intro rem
  induction rem with
  | zero =>
    intro i st
    exact ⟨rfl, rfl, rfl, rfl⟩
  | succ n ih =>
    intro i st
    rw [frameLoopFrom]
    obtain ⟨h1, h2, h3, h4⟩ := ih (i + 1) (frameWriteStar time (stream i) i st)
    exact ⟨h1.trans rfl, h2.trans rfl, h3.trans rfl, h4.trans rfl⟩

/-- Claim C1, counterexample: the scintillation factor of line 108 is
not determined by time, star index, base size and base colour alone —
the source draws a fresh `Math.random()` frequency multiplier inside
the expression, and at time `π/2`, index `0`, base size `1.5`, the
draws `0` and `1/3` give the distinct factors `1.3` and `1`. -/
theorem scintillation_not_input_determined :
    scintillation (Real.pi / 2) 0 1.5 0 ≠ scintillation (Real.pi / 2) 0 1.5 (1 / 3) := by
  have htw : twinkleIntensity 1.5 = 0.3 := by
    unfold twinkleIntensity
    rw [show ((1.5 : ℝ) - 0.5) * 0.3 = 0.3 by norm_num]
    exact max_eq_right (by norm_num)
  have harg0 : Real.pi / 2 * (1 + 0 * 3) + ((0 : ℕ) : ℝ) * 0.123 = Real.pi / 2 := by
    push_cast
    ring
  have harg1 : Real.pi / 2 * (1 + 1 / 3 * 3) + ((0 : ℕ) : ℝ) * 0.123 = Real.pi := by
    push_cast
    ring
  unfold scintillation
  rw [htw, harg0, harg1, Real.sin_pi_div_two, Real.sin_pi]
  norm_num

/-- Claim C1 (amended): the per-frame twinkle computation is
deterministic in time, star index, base size, base colour AND the
per-evaluation random frequency draw: two evaluations with the same
draw produce identical scintillation factors and identical rewritten
size and colour entries. -/
theorem scintillation_deterministic_with_draw (time : ℝ) (i : ℕ) (s cr cg cb r1 r2 : ℝ)
    (h : r1 = r2) :
    scintillation time i s r1 = scintillation time i s r2 ∧
    frameSize time i s r1 = frameSize time i s r2 ∧
    frameColorR time i s r1 cr = frameColorR time i s r2 cr ∧
    frameColorG time i s r1 cg = frameColorG time i s r2 cg ∧
    frameColorB time i s r1 cb = frameColorB time i s r2 cb := by
  subst h
  exact ⟨rfl, rfl, rfl, rfl, rfl⟩

/-- Claim C1, witness: the deterministic-given-the-draw theorem applied
at time `1`, index `0`, base size `1`, base colour `(0.9, 0.8, 0.7)`
and draw `0.5` in both evaluations. -/
theorem scintillation_deterministic_with_draw_witness :
    scintillation 1 0 1 0.5 = scintillation 1 0 1 0.5 ∧
    frameSize 1 0 1 0.5 = frameSize 1 0 1 0.5 ∧
    frameColorR 1 0 1 0.5 0.9 = frameColorR 1 0 1 0.5 0.9 ∧
    frameColorG 1 0 1 0.5 0.8 = frameColorG 1 0 1 0.5 0.8 ∧
    frameColorB 1 0 1 0.5 0.7 = frameColorB 1 0 1 0.5 0.7 :=
  scintillation_deterministic_with_draw 1 0 1 0.9 0.8 0.7 0.5 0.5 rfl

/-- Claim C2: whenever the star generation of lines 10-95 completes,
it yields a position buffer of exactly `3N` floats, a colour buffer of
exactly `3N` floats, and size and magnitude buffers of exactly `N`
scalars; every colour channel lies in `[0, 1]`; and the position
magnitude of star `i` lies within its distance tier's radius band —
`[50, 150]` below `0.1N`, `[150, 450]` below `0.3N`, `[400, 1200]`
for the rest.  The random draws are `Math.random()` values in `[0,1)`. -/
theorem generateStars_buffers_wellformed (count fuel : ℕ) (stream : ℕ → ℝ) (b : Buffers)
    (hs : ∀ k, 0 ≤ stream k ∧ stream k < 1)
    (hgen : generateStars count fuel stream = some b) :
    (b.positions.size = count * 3 ∧ b.colors.size = count * 3 ∧
      b.sizes.size = count ∧ b.magnitudes.size = count) ∧
    (∀ j, j < count * 3 → 0 ≤ b.colors.data j ∧ b.colors.data j ≤ 1) ∧
    (∀ j, j < count → tierLo count j ≤ posMag b j ∧ posMag b j ≤ tierHi count j) := by
  unfold generateStars at hgen
  obtain ⟨hsz, hstars⟩ := genLoop_inv count stream hs fuel 0 0 (initBuffers count) b
    ⟨⟨rfl, rfl, rfl, rfl⟩, fun j hj => (Nat.not_lt_zero j hj).elim⟩ hgen
  refine ⟨hsz, ?_, ?_⟩
  · intro j hj
    have hq : j / 3 < count := by omega
    have hok := hstars (j / 3) hq
    have hr : j % 3 = 0 ∨ j % 3 = 1 ∨ j % 3 = 2 := by omega
    rcases hr with h | h | h
    · have hj3 : j = j / 3 * 3 := by omega
      rw [hj3]
      exact hok.1
    · have hj3 : j = j / 3 * 3 + 1 := by omega
      rw [hj3]
      exact hok.2.1
    · have hj3 : j = j / 3 * 3 + 2 := by omega
      rw [hj3]
      exact hok.2.2.1
  · intro j hj
    exact (hstars j hj).2.2.2

/-- Claim C2, witness: the well-formedness theorem applied to the
requested count `0` with the constant-zero stream and no fuel, where
the loop returns its freshly allocated buffers at once. -/
theorem generateStars_buffers_wellformed_witness :
    ((initBuffers 0).positions.size = 0 * 3 ∧ (initBuffers 0).colors.size = 0 * 3 ∧
      (initBuffers 0).sizes.size = 0 ∧ (initBuffers 0).magnitudes.size = 0) ∧
    (∀ j, j < 0 * 3 → 0 ≤ (initBuffers 0).colors.data j ∧ (initBuffers 0).colors.data j ≤ 1) ∧
    (∀ j, j < 0 → tierLo 0 j ≤ posMag (initBuffers 0) j ∧
      posMag (initBuffers 0) j ≤ tierHi 0 j) :=
  generateStars_buffers_wellformed 0 0 (fun _ => 0) (initBuffers 0)
    (fun _ => by norm_num)
    (by unfold generateStars; rw [genLoop]; norm_num)

/-- Claim C3, counterexample: the generation loop does not terminate
for every random stream — with every draw equal to `1/2` the
probabilistic skip-and-retry branch fires on each iteration, the index
is decremented back forever, and no amount of fuel finishes a request
for one star. -/
theorem generateStars_not_always_terminating :
    ¬ ∃ fuel b, generateStars 1 fuel (fun _ => (1 / 2 : ℝ)) = some b := by
  rintro ⟨fuel, b, h⟩
  unfold generateStars at h
  rw [genLoop_half_skip fuel 0 (initBuffers 1)] at h
  cases h

/-- Claim C3 (amended): for every non-negative star count the
generation loop terminates on every random stream whose draws always
trigger placement (for example all draws below the guaranteed
acceptance floor `0.1`), with fuel `count` sufficing — the skip branch
alone can stall it, and cannot leave a written index unfilled. -/
theorem generateStars_terminates_of_low_draws (count : ℕ) (stream : ℕ → ℝ)
    (hs : ∀ k, stream k < 0.1) :
    ∃ b, generateStars count count stream = some b := by
  obtain ⟨b2, h⟩ := genLoop_low_draw_terminates count stream hs count 0 0 (initBuffers count)
    (by omega)
  exact ⟨b2, h⟩

/-- Claim C3, witness: termination of one-star generation on the
constant-zero stream with fuel `1`. -/
theorem generateStars_terminates_of_low_draws_witness :
    ∃ b, generateStars 1 1 (fun _ => (0 : ℝ)) = some b :=
  generateStars_terminates_of_low_draws 1 (fun _ => 0) (fun _ => by norm_num)

/-- Claim C4: the size written into the size attribute at line 111
equals the star's base size multiplied by the clamped twinkle factor
`max(0.3, scintillation)`, and that factor is at least `0.3`. -/
theorem frameWrite_size_clamped (time rand : ℝ) (i : ℕ) (st : FrameState)
    (h : i < st.sizeAttr.size) :
    (frameWriteStar time rand i st).sizeAttr.data i =
      st.baseSizes.data i * max 0.3 (scintillation time i (st.baseSizes.data i) rand) ∧
    (0.3 : ℝ) ≤ max 0.3 (scintillation time i (st.baseSizes.data i) rand) := by
  constructor
  · show (st.sizeAttr.set i (frameSize time i (st.baseSizes.data i) rand)).data i = _
    rw [Float32Buffer.data_set_same _ _ _ h]
    rfl
  · exact le_max_left _ _

/-- Claim C4, witness: the clamped-size theorem applied to star `0` of
a one-star frame state with zeroed buffers at time `0`, draw `0`. -/
theorem frameWrite_size_clamped_witness :
    (frameWriteStar 0 0 0 ⟨Float32Buffer.new 3, Float32Buffer.new 1, Float32Buffer.new 3,
        Float32Buffer.new 1, Float32Buffer.new 3, Float32Buffer.new 1⟩).sizeAttr.data 0 =
      (Float32Buffer.new 1).data 0 *
        max 0.3 (scintillation 0 0 ((Float32Buffer.new 1).data 0) 0) ∧
    (0.3 : ℝ) ≤ max 0.3 (scintillation 0 0 ((Float32Buffer.new 1).data 0) 0) :=
  frameWrite_size_clamped 0 0 0 _ (by norm_num [Float32Buffer.new])

/-- Claim C5: the eight stellar-classification weights of the
`stellarTypes` table sum to exactly `1`, so cumulative-weight sampling
covers the unit interval. -/
theorem stellarTypes_weights_sum_to_one :
    (stellarTypes.map StellarType.weight).sum = 1 := by
  norm_num [stellarTypes]

/-- Claim C6: the twinkle intensity of line 107 is monotonically
non-decreasing in the star's base size. -/
theorem twinkleIntensity_monotone (s1 s2 : ℝ) (h : s1 ≤ s2) :
    twinkleIntensity s1 ≤ twinkleIntensity s2 := by
  unfold twinkleIntensity
  exact max_le_max le_rfl (by linarith)

/-- Claim C6, witness: monotonicity applied at base sizes `0 ≤ 1`. -/
theorem twinkleIntensity_monotone_witness :
    twinkleIntensity 0 ≤ twinkleIntensity 1 :=
  twinkleIntensity_monotone 0 1 (by norm_num)

/-- Claim C7: one whole `useFrame` invocation rewrites only the size
and colour attribute arrays — the position attribute, the magnitude
buffer and the memoised base buffers are all unchanged, for every
star count, time and sequence of random draws. -/
theorem useFrameStep_preserves_positions_magnitudes (count : ℕ) (time : ℝ) (stream : ℕ → ℝ)
    (st : FrameState) :
    (useFrameStep count time stream st).positionAttr = st.positionAttr ∧
    (useFrameStep count time stream st).magnitudes = st.magnitudes ∧
    (useFrameStep count time stream st).baseSizes = st.baseSizes ∧
    (useFrameStep count time stream st).baseColors = st.baseColors :=
  frameLoopFrom_preserves time stream count 0 st

/-- Claim C8: every pixel of the nebula raster has a well-defined real
alpha value in `[0, 255]`, and the RGB channels are the fixed palette
of the nebula type: `(20, 15, 10)` for the dark type, `(180, 200, 255)`
otherwise.  (In this real-valued embedding the alpha is a genuine real
number, so no NaN can arise.) -/
theorem nebula_pixel_wellformed (x y : ℕ) (t : String) :
    (0 ≤ nebulaAlpha x y ∧ nebulaAlpha x y ≤ 255) ∧
    nebulaRGB "dark" = (20, 15, 10) ∧
    (t ≠ "dark" → nebulaRGB t = (180, 200, 255)) := by
  refine ⟨⟨?_, min_le_left _ _⟩, ?_, ?_⟩
  · unfold nebulaAlpha
    refine le_min (by norm_num) (mul_nonneg ?_ (by norm_num))
    exact Real.rpow_nonneg (le_max_left 0 _) _
  · simp [nebulaRGB]
  · intro h
    simp [nebulaRGB, h]

/-- Claim C8, witness: the raster well-formedness theorem applied at
pixel `(0, 0)` of a reflection nebula. -/
theorem nebula_pixel_wellformed_witness :
    (0 ≤ nebulaAlpha 0 0 ∧ nebulaAlpha 0 0 ≤ 255) ∧
    nebulaRGB "reflection" = (180, 200, 255) :=
  ⟨(nebula_pixel_wellformed 0 0 "reflection").1,
   (nebula_pixel_wellformed 0 0 "reflection").2.2 (by decide)⟩

/-- Claim C9: nebula texture synthesis is a deterministic function of
the nebula type alone — the pixel loop of lines 157-194 samples no
random source, so two syntheses with the same type parameter agree on
every pixel of the 512×512 raster. -/
theorem nebulaPixel_deterministic (t1 t2 : String) (x y : ℕ) (h : t1 = t2) :
    nebulaPixel t1 x y = nebulaPixel t2 x y := by
  rw [h]

/-- Claim C9, witness: two dark-nebula syntheses agree at pixel
`(3, 4)`. -/
theorem nebulaPixel_deterministic_witness :
    nebulaPixel "dark" 3 4 = nebulaPixel "dark" 3 4 :=
  nebulaPixel_deterministic "dark" "dark" 3 4 rfl

/-- Claim C10: a star whose base size is at most `0.5` never twinkles:
its twinkle intensity is `0`, its scintillation factor is exactly `1`,
the written size equals the base size, and (the base channels being at
most `1`, as the generator guarantees) all three colour channels are
written back unchanged. -/
theorem small_stars_do_not_twinkle (time : ℝ) (i : ℕ) (s rand cr cg cb : ℝ)
    (hs : s ≤ 0.5) (hr : cr ≤ 1) (hg : cg ≤ 1) (hb : cb ≤ 1) :
    twinkleIntensity s = 0 ∧ scintillation time i s rand = 1 ∧
    frameSize time i s rand = s ∧
    frameColorR time i s rand cr = cr ∧ frameColorG time i s rand cg = cg ∧
    frameColorB time i s rand cb = cb := by
  have htw : twinkleIntensity s = 0 := by
    unfold twinkleIntensity
    exact max_eq_left (by linarith)
  have hsc : scintillation time i s rand = 1 := by
    unfold scintillation
    rw [htw, mul_zero, zero_add]
  have hshift : colorShift time i s rand = 0 := by
    unfold colorShift
    rw [hsc]
    ring
  refine ⟨htw, hsc, ?_, ?_, ?_, ?_⟩
  · unfold frameSize
    rw [hsc, max_eq_right (by norm_num : (0.3 : ℝ) ≤ 1), mul_one]
  · unfold frameColorR
    rw [hshift, add_zero, mul_one]
    exact min_eq_right hr
  · unfold frameColorG
    rw [hshift, zero_mul, sub_zero, mul_one]
    exact min_eq_right hg
  · unfold frameColorB
    rw [hshift, zero_mul, sub_zero, mul_one]
    exact min_eq_right hb

/-- Claim C10, witness: the no-twinkle theorem applied at time `2`,
index `5`, base size `0.4`, draw `0.7`, base colour `(0.9, 0.8, 0.7)`. -/
theorem small_stars_do_not_twinkle_witness :
    twinkleIntensity 0.4 = 0 ∧ scintillation 2 5 0.4 0.7 = 1 ∧
    frameSize 2 5 0.4 0.7 = 0.4 ∧
    frameColorR 2 5 0.4 0.7 0.9 = 0.9 ∧ frameColorG 2 5 0.4 0.7 0.8 = 0.8 ∧
    frameColorB 2 5 0.4 0.7 0.7 = 0.7 :=
  small_stars_do_not_twinkle 2 5 0.4 0.7 0.9 0.8 0.7 (by norm_num) (by norm_num) (by norm_num)
    (by norm_num)

end

